import Mathlib

/-!
Verification of the compatibility layer of the socketcan-rs repository
(src/compatibility/{mod,linux,osx}.rs): frame layout constants, the
fail-fast OSX stubs, the Linux raw-socket transport, and the filter type.

Machine integers are modelled as `Nat`/`Int`; C/Rust struct sizes are
modelled by an explicit C-layout computation over (size, alignment) field
lists taken from the struct declarations.
-/

namespace SocketCan

/-! ### Memory-layout model

Model of the C (and libc-compatible) struct layout rules: each field is
placed at the next offset aligned to the field's alignment, and the struct
size is the end offset rounded up to the struct's alignment (the maximum
field alignment). The field lists below are transcribed from the struct
declarations in src/src/compatibility/osx.rs, which mirror the libc
`repr(C)` structs re-exported by src/src/compatibility/linux.rs. -/

/-- Round `off` up to the next multiple of `al`. -/
def alignTo (off al : Nat) : Nat := ((off + al - 1) / al) * al

/-- End offset after laying out `fields` (a list of (size, align) pairs) in
declaration order. -/
def structEnd (fields : List (Nat × Nat)) : Nat :=
  fields.foldl (fun off f => alignTo off f.2 + f.1) 0

/-- Alignment of a struct: the maximum alignment of its fields (at least 1). -/
def structAlign (fields : List (Nat × Nat)) : Nat :=
  fields.foldl (fun a f => max a f.2) 1

/-- Size of a struct with the given (size, align) fields: end offset padded
to the struct alignment. -/
def structSize (fields : List (Nat × Nat)) : Nat :=
  alignTo (structEnd fields) (structAlign fields)

namespace osx

/-! ### Constants of src/src/compatibility/osx.rs -/

/-- Maximum data length for classic CAN frames (`CAN_MAX_DLEN`). -/
def CAN_MAX_DLEN : Nat := 8

/-- Maximum data length for CAN FD frames (`CANFD_MAX_DLEN`). -/
def CANFD_MAX_DLEN : Nat := 64

/-- Maximum data length for CAN XL frames (`CANXL_MAX_DLEN`). -/
def CANXL_MAX_DLEN : Nat := 2048

/-- Field (size, align) list of `can_frame`: `can_id : canid_t` (u32),
`can_dlc : u8`, `__pad : u8`, `__res0 : u8`, `len8_dlc : u8`,
`data : [u8; CAN_MAX_DLEN]`. -/
def can_frame_fields : List (Nat × Nat) :=
  [(4, 4), (1, 1), (1, 1), (1, 1), (1, 1), (CAN_MAX_DLEN, 1)]

/-- Field (size, align) list of `canfd_frame`: `can_id : canid_t` (u32),
`len : u8`, `flags : u8`, `__res0 : u8`, `__res1 : u8`,
`data : [u8; CANFD_MAX_DLEN]`. -/
def canfd_frame_fields : List (Nat × Nat) :=
  [(4, 4), (1, 1), (1, 1), (1, 1), (1, 1), (CANFD_MAX_DLEN, 1)]

/-- Field (size, align) list of `canxl_frame`: `prio : canid_t` (u32),
`flags : u8`, `sdt : u8`, `len : u16`, `af : u32`,
`data : [u8; CANXL_MAX_DLEN]`. -/
def canxl_frame_fields : List (Nat × Nat) :=
  [(4, 4), (1, 1), (1, 1), (2, 2), (4, 4), (CANXL_MAX_DLEN, 1)]

/-- Maximum transmission unit for classic CAN frames: the source defines
`CAN_MTU` as `size_of::<can_frame>()`. -/
def CAN_MTU : Nat := structSize can_frame_fields

/-- Maximum transmission unit for CAN FD frames: `size_of::<canfd_frame>()`. -/
def CANFD_MTU : Nat := structSize canfd_frame_fields

/-- Maximum transmission unit for CAN XL frames: `size_of::<canxl_frame>()`. -/
def CANXL_MTU : Nat := structSize canxl_frame_fields

/-- Size of the CAN XL header without the data payload (source literal 12). -/
def CANXL_HDR_SIZE : Nat := 12

/-- Minimum MTU for CAN XL frames: `CANXL_HDR_SIZE + 64`. -/
def CANXL_MIN_MTU : Nat := CANXL_HDR_SIZE + 64

/-- Maximum MTU for CAN XL frames: `CANXL_MTU`. -/
def CANXL_MAX_MTU : Nat := CANXL_MTU

end osx

/-- C1: for all three frame kinds the declared size constant equals the
structure's exact memory footprint as computed by the C layout rules:
`CAN_MTU = size_of can_frame = 16`, `CANFD_MTU = size_of canfd_frame = 72`,
`CANXL_MTU = size_of canxl_frame = CANXL_HDR_SIZE + CANXL_MAX_DLEN = 2060`,
with `CANXL_MIN_MTU = 12 + 64` and `CANXL_MAX_MTU = CANXL_MTU`. -/
theorem mtu_constants_match_layout :
    osx.CAN_MTU = structSize osx.can_frame_fields ∧ osx.CAN_MTU = 16 ∧
    osx.CANFD_MTU = structSize osx.canfd_frame_fields ∧ osx.CANFD_MTU = 72 ∧
    osx.CANXL_MTU = structSize osx.canxl_frame_fields ∧
    osx.CANXL_MTU = osx.CANXL_HDR_SIZE + osx.CANXL_MAX_DLEN ∧
    osx.CANXL_HDR_SIZE = 12 ∧ osx.CANXL_MTU = 2060 ∧
    osx.CANXL_MIN_MTU = 12 + 64 ∧ osx.CANXL_MAX_MTU = osx.CANXL_MTU := by
  refine ⟨rfl, by decide, rfl, by decide, rfl, by decide, rfl, by decide, rfl, rfl⟩

/-! ### OSX stub transport (src/src/compatibility/osx.rs)

A Rust `panic!` is modelled by the `panicked` constructor of `CallResult`,
carrying the panic message; a normal return is `returned`. The external
`libc::setsockopt` syscall is modelled as an oracle function supplied as an
argument. -/

/-- Result of calling a function that may panic. -/
inductive CallResult (α : Type) where
  | panicked : String → CallResult α
  | returned : α → CallResult α
deriving DecidableEq

/-- Message of every fail-fast panic in osx.rs. -/
def notSupportedMsg : String := "Not supported outside of Linux"

/-- Modelled from the spec: the crate-level `CanAddr` / `sockaddr_can`
address (address-family tag, signed interface index, and a protocol-specific
union holding either transport-protocol rx/tx identifiers or J1939
name/pgn/address); the union is modelled as a tagged sum. The `CanAddr`
type lives in the crate's socket module, which is not under src/. -/
inductive can_addr_union where
  | tp : Nat → Nat → can_addr_union
  | j1939 : Nat → Nat → Nat → can_addr_union
deriving DecidableEq

/-- SocketCAN address structure (`sockaddr_can`): address family (u16),
interface index (c_int), protocol-specific address data. -/
structure sockaddr_can where
  can_family : Nat
  can_ifindex : Int
  can_addr : can_addr_union
deriving DecidableEq

/-- Crate-level CAN address, carried through to `bind`. -/
abbrev CanAddr := sockaddr_can

/-- Modelled from the spec: a socket handle (the crate's `CanSocket` /
`socket2::Socket` wrap a raw file descriptor; the wrapper types are not
under src/). -/
structure CanSocket where
  fd : Nat
deriving DecidableEq

/-- Classic CAN 2.0 frame structure `can_frame`: identifier with flags
(u32), data-length code, padding byte, reserved byte, 8-byte-alignment DLC,
and 8 payload bytes. Bytes are `Nat` values. -/
structure can_frame where
  can_id : Nat
  can_dlc : Nat
  __pad : Nat
  __res0 : Nat
  len8_dlc : Nat
  data : List Nat
deriving DecidableEq

namespace osx

/-- Raw CAN protocol number (`CAN_RAW`). -/
def CAN_RAW : Int := 1

/-- Socket option level base for CAN: a deliberately invalid number
(`0xFFFFF`) to trigger a runtime error, as SocketCAN is unsupported on OSX. -/
def SOL_CAN_BASE : Int := 0xFFFFF

/-- CAN address family: the same deliberately invalid number `0xFFFFF`. -/
def AF_CAN : Int := 0xFFFFF

/-- CAN protocol family: `PF_CAN = AF_CAN`. -/
def PF_CAN : Int := AF_CAN

/-- Socket option level for raw CAN: `SOL_CAN_BASE + CAN_RAW`. -/
def SOL_CAN_RAW : Int := SOL_CAN_BASE + CAN_RAW

/-- Socket option code for enabling CAN XL frames (`CAN_RAW_XL_FRAMES`). -/
def CAN_RAW_XL_FRAMES : Int := 7

/-- Oracle type standing for the operating system's `setsockopt` syscall:
from socket, level, name, option bytes and option length to the syscall's
`c_int` result. -/
def SetsockoptOs : Type := Int → Int → Int → List Nat → Nat → Int

/-- OSX stub `raw_open_socket`: panics unconditionally. -/
def raw_open_socket (_addr : CanAddr) : CallResult Unit :=
  .panicked notSupportedMsg

/-- OSX stub `CanSocket::read_raw_frame`: panics unconditionally. -/
def read_raw_frame (_sock : CanSocket) : CallResult can_frame :=
  .panicked notSupportedMsg

/-- OSX stub `CanSocket::write_raw_frame`: panics unconditionally. -/
def write_raw_frame (_sock : CanSocket) (_frame : can_frame) : CallResult Unit :=
  .panicked notSupportedMsg

/-- OSX `setsockopt_wrapper`: panics when the level is `SOL_CAN_RAW`,
otherwise forwards all five arguments unchanged to the operating system's
`setsockopt` and returns that syscall's result. -/
def setsockopt_wrapper (os : SetsockoptOs) (socket level name : Int)
    (value : List Nat) (option_len : Nat) : CallResult Int :=
  if SOL_CAN_RAW = level then
    .panicked notSupportedMsg
  else
    .returned (os socket level name value option_len)

end osx

/-- C2: on the non-supporting platform every invocation of
`read_raw_frame`, `write_raw_frame`, `raw_open_socket`, or
`setsockopt_wrapper` at option level `SOL_CAN_RAW` panics deterministically
and unconditionally with the same message, independent of the socket,
address, frame, option-value and length arguments and of the OS. -/
theorem osx_transport_fails_unconditionally (addr : CanAddr) (sock : CanSocket)
    (f : can_frame) (os : osx.SetsockoptOs) (s n : Int) (v : List Nat) (l : Nat) :
    osx.raw_open_socket addr = .panicked notSupportedMsg ∧
    osx.read_raw_frame sock = .panicked notSupportedMsg ∧
    osx.write_raw_frame sock f = .panicked notSupportedMsg ∧
    osx.setsockopt_wrapper os s osx.SOL_CAN_RAW n v l = .panicked notSupportedMsg :=
  ⟨rfl, rfl, rfl, rfl⟩

/-- C9: on the non-supporting platform, `setsockopt_wrapper` called with any
option level other than `SOL_CAN_RAW` does not panic: it forwards the call
unchanged (same socket, level, name, value and length) to the operating
system's `setsockopt` and returns that syscall's result; the panic branch is
taken exactly when the level is `SOL_CAN_RAW`. -/
theorem osx_setsockopt_forwards_other_levels (os : osx.SetsockoptOs)
    (s level n : Int) (v : List Nat) (l : Nat) (h : level ≠ osx.SOL_CAN_RAW) :
    osx.setsockopt_wrapper os s level n v l = .returned (os s level n v l) := by
  unfold osx.setsockopt_wrapper
  rw [if_neg (fun e => h e.symm)]

/-- Witness for C9: at level 3 (a real `SOL_SOCKET`-style level) with a
concrete oracle, the wrapper returns the oracle's result. -/
theorem osx_setsockopt_forwards_witness :
    osx.setsockopt_wrapper (fun a b c _ e => a + b + c + e) 5 3 4 [9] 2 =
      .returned 14 :=
  osx_setsockopt_forwards_other_levels (fun a b c _ e => a + b + c + e)
    5 3 4 [9] 2 (by decide)

/-- C6 counterexample: the claim says `set_option` invoked with ANY level
and name whatsoever fails unconditionally on the non-supporting platform,
never returning a recoverable result; but at level 0 (not `SOL_CAN_RAW`)
the wrapper returns the forwarded syscall's recoverable result `0`, not a
panic. -/
theorem osx_setsockopt_level0_does_not_fail :
    osx.setsockopt_wrapper (fun _ _ _ _ _ => 0) 3 0 1 [] 0 =
      .returned 0 ∧
    ∀ m, osx.setsockopt_wrapper (fun _ _ _ _ _ => 0) 3 0 1 [] 0 ≠
      .panicked m := by
  refine ⟨rfl, fun m h => ?_⟩
  rw [show osx.setsockopt_wrapper (fun _ _ _ _ _ => 0) 3 0 1 [] 0 =
    CallResult.returned 0 from rfl] at h
  exact CallResult.noConfusion h

/-- C6 amended: on the non-supporting platform, `raw_open_socket`,
`read_raw_frame` and `write_raw_frame` panic unconditionally, and
`setsockopt_wrapper` panics exactly when the level is `SOL_CAN_RAW`; for
every other level it forwards to the operating system's `setsockopt` and
returns that result. -/
theorem osx_operations_fail_except_foreign_setsockopt (addr : CanAddr)
    (sock : CanSocket) (f : can_frame) (os : osx.SetsockoptOs)
    (s level n : Int) (v : List Nat) (l : Nat) :
    osx.raw_open_socket addr = .panicked notSupportedMsg ∧
    osx.read_raw_frame sock = .panicked notSupportedMsg ∧
    osx.write_raw_frame sock f = .panicked notSupportedMsg ∧
    (level = osx.SOL_CAN_RAW →
      osx.setsockopt_wrapper os s level n v l = .panicked notSupportedMsg) ∧
    (level ≠ osx.SOL_CAN_RAW →
      osx.setsockopt_wrapper os s level n v l =
        .returned (os s level n v l)) := by
  refine ⟨rfl, rfl, rfl, fun he => ?_, fun hn => ?_⟩
  · subst he; rfl
  · unfold osx.setsockopt_wrapper
    rw [if_neg (fun e => hn e.symm)]

/-- Modelled from the spec: the native Linux kernel ABI values of the
address-family and CAN option-level constants, which
src/src/compatibility/linux.rs re-exports from the external libc crate but
does not itself define (`AF_CAN = PF_CAN = 29`, `SOL_CAN_BASE = 100`, so
`SOL_CAN_RAW = 101`); the spec requires these to match the kernel ABI
precisely. -/
def linuxAbi_AF_CAN : Int := 29

/-- Modelled from the spec: the native Linux `SOL_CAN_BASE` (100). -/
def linuxAbi_SOL_CAN_BASE : Int := 100

/-- Modelled from the spec: the native Linux `SOL_CAN_RAW`
(`SOL_CAN_BASE + CAN_RAW = 101`). -/
def linuxAbi_SOL_CAN_RAW : Int := linuxAbi_SOL_CAN_BASE + 1

/-- C10: on the non-supporting platform the address-family and option-level
constants are deliberately invalid values differing from the native Linux
ABI: `AF_CAN = PF_CAN = SOL_CAN_BASE = 0xFFFFF`, hence
`SOL_CAN_RAW = SOL_CAN_BASE + CAN_RAW = 0x100000`; these differ from the
Linux ABI values, and `0xFFFFF` does not even fit the 16-bit `sa_family_t`
field of `sockaddr_can`, so it cannot designate a real socket family. -/
theorem osx_constants_deliberately_invalid :
    osx.AF_CAN = 0xFFFFF ∧ osx.PF_CAN = osx.AF_CAN ∧
    osx.SOL_CAN_BASE = 0xFFFFF ∧
    osx.SOL_CAN_RAW = osx.SOL_CAN_BASE + osx.CAN_RAW ∧
    osx.SOL_CAN_RAW = 0x100000 ∧
    osx.AF_CAN ≠ linuxAbi_AF_CAN ∧
    osx.SOL_CAN_RAW ≠ linuxAbi_SOL_CAN_RAW ∧
    (65535 : Int) < osx.AF_CAN := by
  refine ⟨rfl, rfl, rfl, rfl, by decide, by decide, by decide, by decide⟩

/-! ### Linux raw-socket transport (src/src/compatibility/linux.rs)

The byte representation of a `can_frame` follows its memory layout (proved
padding-free above): little-endian `can_id`, then the four single bytes,
then the 8 data bytes. `Read::read_exact` and `Write::write_all` of the
Rust standard library are modelled by their documented contracts over an
abstract socket. -/

/-- Errors surfaced by the transport. -/
inductive IoError where
  | unexpectedEof
  | writeZero
  | osError : Int → IoError
deriving DecidableEq

/-- Little-endian byte decomposition of a 32-bit value. -/
def u32_le_bytes (x : Nat) : List Nat :=
  [x % 256, x / 256 % 256, x / 65536 % 256, x / 16777216 % 256]

/-- Byte of a list at index `i`, or 0 past the end. -/
def byteAt (bs : List Nat) (i : Nat) : Nat := bs.getD i 0

/-- Little-endian 32-bit value from the first four bytes of a list. -/
def u32_of_le (bs : List Nat) : Nat :=
  byteAt bs 0 + 256 * byteAt bs 1 + 65536 * byteAt bs 2 +
    16777216 * byteAt bs 3

/-- Modelled from the spec: `can_frame_default()` from the crate's frame
module (not under src/) — the default constructor produces an all-zero
frame. -/
def can_frame_default : can_frame :=
  ⟨0, 0, 0, 0, 0, List.replicate osx.CAN_MAX_DLEN 0⟩

/-- Decode a `can_frame` from its 16-byte in-memory representation, as the
exact-size read overwrites every byte of the default frame. -/
def can_frame_from_bytes (bs : List Nat) : can_frame :=
  ⟨u32_of_le bs, byteAt bs 4, byteAt bs 5, byteAt bs 6, byteAt bs 7,
    (bs.drop 8).take 8⟩

/-- Modelled from the spec: `AsPtr::as_bytes` from the crate's frame module
(not under src/) — the frame's entire byte representation, laid out exactly
as the struct's memory (no padding, proved above). -/
def can_frame_as_bytes (f : can_frame) : List Nat :=
  u32_le_bytes f.can_id ++ [f.can_dlc, f.__pad, f.__res0, f.len8_dlc] ++ f.data

/-- Contract of Rust's `Read::read_exact` over a socket modelled as the
list of bytes it will deliver before end-of-stream: fill exactly `n` bytes
when that many are available, otherwise fail with `UnexpectedEof` and never
hand back a partially filled buffer as success. -/
def read_exact (stream : List Nat) (n : Nat) :
    Except IoError (List Nat × List Nat) :=
  if n ≤ stream.length then .ok (stream.take n, stream.drop n)
  else .error .unexpectedEof

namespace linux

/-- Linux `CanSocket::read_raw_frame`: start from a fresh default (zeroed)
frame, read exactly `size_of::<can_frame>()` bytes into it, and return the
frame; a short read is an error. Returns the remaining stream alongside the
frame. -/
def read_raw_frame (stream : List Nat) :
    Except IoError (can_frame × List Nat) :=
  let _frame := can_frame_default
  match read_exact stream osx.CAN_MTU with
  | .error e => .error e
  | .ok (bs, rest) => .ok (can_frame_from_bytes bs, rest)

end linux

/-- Outcome of one underlying `write` call on the socket: the call fails
with an OS error, or accepts up to `k` bytes. -/
inductive WriteStep where
  | fails : Int → WriteStep
  | accepts : Nat → WriteStep
deriving DecidableEq

/-- Contract of Rust's `Write::write_all` over a socket modelled as the
sequence of per-call outcomes: loop writing the remaining bytes; a failed
call surfaces its error, a call accepting 0 bytes (or an exhausted socket)
is a `WriteZero` error; returns the result together with the bytes actually
transmitted to the socket. -/
def write_all : List WriteStep → List Nat → Except IoError Unit × List Nat
  | _, [] => (.ok (), [])
  | [], _ :: _ => (.error .writeZero, [])
  | step :: rest, b :: bs =>
    match step with
    | .fails e => (.error (.osError e), [])
    | .accepts 0 => (.error .writeZero, [])
    | .accepts (k + 1) =>
      let w := min (k + 1) (b :: bs).length
      let r := write_all rest ((b :: bs).drop w)
      (r.1, (b :: bs).take w ++ r.2)

namespace linux

/-- Linux `CanSocket::write_raw_frame`: `write_all` of the frame's byte
representation. Returns the result together with the transmitted bytes. -/
def write_raw_frame (steps : List WriteStep) (f : can_frame) :
    Except IoError Unit × List Nat :=
  write_all steps (can_frame_as_bytes f)

end linux

/-- When `write_all` returns success, the transmitted bytes are exactly the
whole buffer. -/
theorem write_all_ok_transmits_all (steps : List WriteStep) (bytes : List Nat)
    (h : (write_all steps bytes).1 = .ok ()) :
    (write_all steps bytes).2 = bytes := by
  induction steps generalizing bytes with
  | nil =>
    cases bytes with
    | nil => rfl
    | cons b bs => simp [write_all] at h
  | cons step rest ih =>
    cases bytes with
    | nil => rfl
    | cons b bs =>
      cases step with
      | fails e => simp [write_all] at h
      | accepts k =>
        cases k with
        | zero => simp [write_all] at h
        | succ k =>
          simp only [write_all] at h ⊢
          rw [ih _ h]
          exact List.take_append_drop _ _

/-- C3: on the supporting platform, a read that delivers fewer bytes than
`size_of::<can_frame>()` makes `read_raw_frame` return an I/O failure and
never a frame; it returns a frame only when exactly `CAN_MTU` bytes were
read into it (the frame is the decoding of exactly those bytes), and the
default frame each call starts from is all-zero. -/
theorem read_raw_frame_all_or_nothing (stream : List Nat) :
    (stream.length < osx.CAN_MTU →
      linux.read_raw_frame stream = .error .unexpectedEof) ∧
    (∀ f rest, linux.read_raw_frame stream = .ok (f, rest) →
      osx.CAN_MTU ≤ stream.length ∧
      f = can_frame_from_bytes (stream.take osx.CAN_MTU) ∧
      rest = stream.drop osx.CAN_MTU) ∧
    can_frame_default = ⟨0, 0, 0, 0, 0, List.replicate 8 0⟩ := by
  refine ⟨?_, ?_, rfl⟩
  · intro h
    unfold linux.read_raw_frame read_exact
    rw [if_neg (by omega)]
  · intro f rest h
    unfold linux.read_raw_frame read_exact at h
    by_cases hle : osx.CAN_MTU ≤ stream.length
    · rw [if_pos hle] at h
      simp only [Except.ok.injEq, Prod.mk.injEq] at h
      exact ⟨hle, h.1.symm, h.2.symm⟩
    · rw [if_neg hle] at h
      simp at h

/-- Witness for C3: a 15-byte stream (one byte short of `CAN_MTU = 16`)
makes `read_raw_frame` fail with an unexpected-end-of-stream error. -/
theorem read_raw_frame_short_witness :
    linux.read_raw_frame (List.replicate 15 7) = .error .unexpectedEof :=
  (read_raw_frame_all_or_nothing (List.replicate 15 7)).1 (by decide)

/-- C4: on the supporting platform, when `write_raw_frame` returns success
the bytes transmitted to the socket are exactly the frame's entire byte
representation — it never reports success after transmitting only part of
the frame. -/
theorem write_raw_frame_all_or_nothing (steps : List WriteStep)
    (f : can_frame) (h : (linux.write_raw_frame steps f).1 = .ok ()) :
    (linux.write_raw_frame steps f).2 = can_frame_as_bytes f :=
  write_all_ok_transmits_all steps (can_frame_as_bytes f) h

/-- Witness for C4: a socket accepting 16 bytes in one call transmits the
default frame's whole 16-byte representation. -/
theorem write_raw_frame_witness :
    (linux.write_raw_frame [WriteStep.accepts 16] can_frame_default).2 =
      can_frame_as_bytes can_frame_default :=
  write_raw_frame_all_or_nothing [WriteStep.accepts 16] can_frame_default
    (by rfl)

/-! ### Opening a raw CAN socket (src/src/compatibility/linux.rs)

`socket2::Socket::new_raw` and `bind` are external syscall wrappers; they
are modelled as an oracle deciding whether each call succeeds, together
with an explicit state of open file descriptors so that resource leaks are
observable. Rust's `?` propagation drops the `socket2::Socket` on a bind
failure, which closes its descriptor. -/

/-- Modelled from the spec: the native Linux `SOCK_RAW` socket type (3)
that `socket2::Type::RAW` stands for; socket2 and libc are external crates
not under src/. -/
def linuxAbi_SOCK_RAW : Int := 3

/-- Oracle deciding the two syscalls of `raw_open_socket`: whether creating
a socket with the given (domain, type, protocol) succeeds, and whether
binding a given descriptor to a given address succeeds (`none` means
success, `some e` the OS error). -/
structure OsBehavior where
  socketResult : Int → Int → Int → Option Int
  bindResult : Nat → CanAddr → Option Int

/-- State of the process's open socket descriptors. -/
structure OsState where
  openFds : List Nat
  nextFd : Nat
deriving DecidableEq

/-- Linux `raw_open_socket`: create a socket with domain `AF_CAN`, type
`SOCK_RAW` and protocol `CAN_RAW`, then bind it to the given address.
Returns the new state and the bound descriptor, or the propagated error;
on a bind failure the freshly created descriptor is closed (dropped) before
the error is returned, and on a creation failure no descriptor was ever
allocated. -/
def linux_raw_open_socket (os : OsBehavior) (st : OsState) (addr : CanAddr) :
    OsState × Except IoError Nat :=
  match os.socketResult linuxAbi_AF_CAN linuxAbi_SOCK_RAW osx.CAN_RAW with
  | some e => (st, .error (.osError e))
  | none =>
    match os.bindResult st.nextFd addr with
    | some e => (⟨st.openFds, st.nextFd + 1⟩, .error (.osError e))
    | none => (⟨st.nextFd :: st.openFds, st.nextFd + 1⟩, .ok st.nextFd)

/-- C8: `raw_open_socket` succeeds exactly when creating an `AF_CAN` /
`SOCK_RAW` / `CAN_RAW` socket succeeds and binding it to the given address
succeeds; on success the returned descriptor is the freshly created one,
now among the open descriptors; on any failure the set of open descriptors
is unchanged from before the call (no descriptor is leaked) and no
descriptor is returned. -/
theorem raw_open_socket_binds_or_fails_cleanly (os : OsBehavior)
    (st : OsState) (addr : CanAddr) :
    (∀ fd, (linux_raw_open_socket os st addr).2 = .ok fd →
      os.socketResult linuxAbi_AF_CAN linuxAbi_SOCK_RAW osx.CAN_RAW = none ∧
      os.bindResult st.nextFd addr = none ∧
      fd = st.nextFd ∧
      (linux_raw_open_socket os st addr).1.openFds = fd :: st.openFds) ∧
    (∀ e, (linux_raw_open_socket os st addr).2 = .error e →
      (linux_raw_open_socket os st addr).1.openFds = st.openFds) := by
  constructor
  · intro fd h
    cases hs : os.socketResult linuxAbi_AF_CAN linuxAbi_SOCK_RAW osx.CAN_RAW with
    | some e => simp [linux_raw_open_socket, hs] at h
    | none =>
      cases hb : os.bindResult st.nextFd addr with
      | some e => simp [linux_raw_open_socket, hs, hb] at h
      | none =>
        simp only [linux_raw_open_socket, hs, hb, Except.ok.injEq] at h
        refine ⟨rfl, rfl, h.symm, ?_⟩
        simp [linux_raw_open_socket, hs, hb, ← h]
  · intro e h
    cases hs : os.socketResult linuxAbi_AF_CAN linuxAbi_SOCK_RAW osx.CAN_RAW with
    | some e2 => simp [linux_raw_open_socket, hs]
    | none =>
      cases hb : os.bindResult st.nextFd addr with
      | some e2 => simp [linux_raw_open_socket, hs, hb]
      | none => simp [linux_raw_open_socket, hs, hb] at h

/-- Witness for C8: with an oracle that accepts every call, opening from a
fresh state yields descriptor 0, which is then the only open descriptor. -/
theorem raw_open_socket_witness :
    (linux_raw_open_socket ⟨fun _ _ _ => none, fun _ _ => none⟩ ⟨[], 0⟩
        ⟨0, 1, .tp 0 0⟩).2 = .ok 0 ∧
    (linux_raw_open_socket ⟨fun _ _ _ => none, fun _ _ => none⟩ ⟨[], 0⟩
        ⟨0, 1, .tp 0 0⟩).1.openFds = [0] := by
  have h := (raw_open_socket_binds_or_fails_cleanly
    ⟨fun _ _ _ => none, fun _ _ => none⟩ ⟨[], 0⟩ ⟨0, 1, .tp 0 0⟩).1 0 rfl
  exact ⟨rfl, h.2.2.2⟩

/-! ### Export surfaces of the two platform modules

The names exported by src/src/compatibility/linux.rs (its `pub use libc`
re-export list plus the items the file itself defines) and by
src/src/compatibility/osx.rs (every `pub` item it defines plus its own
functions), transcribed from the source. -/

/-- Names exported by the Linux module: the `pub use libc` list plus
`raw_open_socket`, `setsockopt_wrapper` and the two `CanSocket` methods. -/
def linuxExports : List String :=
  ["can_frame", "canfd_frame", "canxl_frame", "can_filter", "sockaddr_can",
   "canid_t", "can_err_mask_t", "CAN_EFF_FLAG", "CAN_RTR_FLAG",
   "CAN_ERR_FLAG", "CAN_SFF_MASK", "CAN_EFF_MASK", "CAN_ERR_MASK",
   "CAN_MAX_DLC", "CAN_MAX_DLEN", "CANFD_MAX_DLC", "CANFD_MAX_DLEN",
   "CANFD_BRS", "CANFD_ESI", "CANFD_FDF", "CAN_MTU", "CANFD_MTU",
   "CAN_RAW", "CAN_BCM", "CAN_TP16", "CAN_TP20", "CAN_MCNET", "CAN_ISOTP",
   "CAN_J1939", "CAN_NPROTO", "AF_CAN", "PF_CAN", "SOL_CAN_BASE",
   "SOL_CAN_RAW", "CAN_RAW_FILTER", "CAN_RAW_ERR_FILTER",
   "CAN_RAW_LOOPBACK", "CAN_RAW_RECV_OWN_MSGS", "CAN_RAW_FD_FRAMES",
   "CAN_RAW_JOIN_FILTERS", "CAN_RAW_FILTER_MAX", "CAN_INV_FILTER",
   "c_int", "c_void", "socklen_t",
   "raw_open_socket", "setsockopt_wrapper", "read_raw_frame",
   "write_raw_frame"]

/-- Names exported by the OSX module: every `pub` type, constant and
operation it declares. -/
def osxExports : List String :=
  ["CAN_EFF_FLAG", "CAN_RTR_FLAG", "CAN_ERR_FLAG", "CAN_SFF_MASK",
   "CAN_EFF_MASK", "CAN_ERR_MASK", "CANXL_PRIO_MASK", "CAN_SFF_ID_BITS",
   "CAN_EFF_ID_BITS", "CANXL_PRIO_BITS", "can_err_mask_t", "CAN_MAX_DLC",
   "CAN_MAX_DLEN", "CANFD_MAX_DLC", "CANFD_MAX_DLEN", "CANXL_MIN_DLC",
   "CANXL_MAX_DLC", "CANXL_MAX_DLC_MASK", "CANXL_MIN_DLEN",
   "CANXL_MAX_DLEN", "CAN_INV_FILTER", "can_frame", "CANFD_BRS",
   "CANFD_ESI", "CANFD_FDF", "canfd_frame", "CANXL_XLF", "CANXL_SEC",
   "canxl_frame", "CAN_MTU", "CANFD_MTU", "CANXL_MTU", "CANXL_HDR_SIZE",
   "CANXL_MIN_MTU", "CANXL_MAX_MTU", "CAN_RAW", "CAN_BCM", "CAN_TP16",
   "CAN_TP20", "CAN_MCNET", "CAN_ISOTP", "CAN_J1939", "CAN_NPROTO",
   "SOL_CAN_BASE", "AF_CAN", "PF_CAN", "SOL_CAN_RAW", "CAN_RAW_FILTER_MAX",
   "CAN_RAW_FILTER", "CAN_RAW_ERR_FILTER", "CAN_RAW_LOOPBACK",
   "CAN_RAW_RECV_OWN_MSGS", "CAN_RAW_FD_FRAMES", "CAN_RAW_JOIN_FILTERS",
   "CAN_RAW_XL_FRAMES", "canid_t", "sockaddr_can",
   "__c_anonymous_sockaddr_can_can_addr", "__c_anonymous_sockaddr_can_tp",
   "__c_anonymous_sockaddr_can_j1939", "can_filter",
   "raw_open_socket", "setsockopt_wrapper", "read_raw_frame",
   "write_raw_frame"]

/-- XL-related names the OSX module exports (the claim names
`CAN_RAW_XL_FRAMES`, `CANXL_MTU`, `CANXL_HDR_SIZE`, `CANXL_MIN_MTU`,
`CANXL_MAX_MTU` explicitly). -/
def xlOnlyNames : List String :=
  ["CAN_RAW_XL_FRAMES", "CANXL_MTU", "CANXL_HDR_SIZE", "CANXL_MIN_MTU",
   "CANXL_MAX_MTU", "CANXL_PRIO_MASK", "CANXL_PRIO_BITS", "CANXL_MIN_DLC",
   "CANXL_MAX_DLC", "CANXL_MAX_DLC_MASK", "CANXL_MIN_DLEN",
   "CANXL_MAX_DLEN", "CANXL_XLF", "CANXL_SEC"]

/-- Raw scalar type aliases only the Linux module re-exports. -/
def libcScalarNames : List String := ["c_int", "c_void", "socklen_t"]

/-- C5 counterexample: the claim says every name exported by one platform
module is exported by the other, and names `CAN_RAW_XL_FRAMES` and the XL
constants among them; but `CAN_RAW_XL_FRAMES` (and `CANXL_MTU`,
`CANXL_HDR_SIZE`, `CANXL_MIN_MTU`, `CANXL_MAX_MTU`) are exported by the OSX
module and absent from the Linux module's re-export list. -/
theorem export_surfaces_differ_on_xl_names :
    ("CAN_RAW_XL_FRAMES" ∈ osxExports ∧ "CAN_RAW_XL_FRAMES" ∉ linuxExports) ∧
    ("CANXL_MTU" ∈ osxExports ∧ "CANXL_MTU" ∉ linuxExports) ∧
    ¬(∀ n, n ∈ linuxExports ↔ n ∈ osxExports) := by
  refine ⟨⟨by decide, by decide⟩, ⟨by decide, by decide⟩, fun h => ?_⟩
  exact absurd ((h "CAN_RAW_XL_FRAMES").mpr (by decide)) (by decide)

/-- C5 amended: the two platform modules share the whole core surface —
every name exported by the Linux module except the raw libc scalar aliases
`c_int`, `c_void`, `socklen_t` is also exported by the OSX module — but the
XL constants (`CANXL_MTU`, `CANXL_HDR_SIZE`, `CANXL_MIN_MTU`,
`CANXL_MAX_MTU`, `CAN_RAW_XL_FRAMES` and the other `CANXL_*` names) are
exported only by the OSX module. -/
theorem export_surface_core_shared :
    (linuxExports.all fun n =>
      osxExports.contains n || libcScalarNames.contains n) = true ∧
    (xlOnlyNames.all fun n =>
      osxExports.contains n && !linuxExports.contains n) = true := by
  refine ⟨by decide, by decide⟩

/-! ### Acceptance filter (src/src/compatibility/osx.rs, `can_filter`)

`can_filter` derives `Eq`, `PartialEq` and `Hash` in the source: equality
is structural on (can_id, can_mask), and the derived `Hash` feeds `can_id`
and then `can_mask` into the hasher, so the hash is a deterministic
function of the two fields. The hasher's mixing step is modelled as a
concrete 64-bit accumulator. -/

/-- CAN filter structure: an identifier to match and a mask, both
`canid_t` (u32) values. -/
structure can_filter where
  can_id : Nat
  can_mask : Nat
deriving DecidableEq

/-- One mixing step of a deterministic hasher state. -/
def hashStep (st b : Nat) : Nat := (st * 31 + b) % 18446744073709551616

/-- Derived `Hash` of a `can_filter`: hash `can_id`, then `can_mask`, as
the derive macro feeds the fields in declaration order. -/
def can_filter_hash (f : can_filter) : Nat :=
  hashStep (hashStep 0 f.can_id) f.can_mask

/-- C7: two filters are equal exactly when their (can_id, can_mask) pairs
are equal, and equal filters hash identically — so filters differing in id
or mask are distinguishable by equality. -/
theorem can_filter_eq_iff_fields_and_hash_congruent (f g : can_filter) :
    (f = g ↔ f.can_id = g.can_id ∧ f.can_mask = g.can_mask) ∧
    (f = g → can_filter_hash f = can_filter_hash g) := by
  constructor
  · constructor
    · intro h
      rw [h]
      exact ⟨rfl, rfl⟩
    · intro h
      cases f
      cases g
      simp only [can_filter.mk.injEq]
      exact ⟨h.1, h.2⟩
  · intro h
    rw [h]

/-- Witness for C7: two concretely equal filters (id `0x123`, mask
`0x7FF`) are equal with equal fields and identical hashes, instantiating
the theorem at a concrete input. -/
theorem can_filter_eq_iff_witness :
    (can_filter.mk 291 2047 = can_filter.mk 291 2047 ↔
      (can_filter.mk 291 2047).can_id = (can_filter.mk 291 2047).can_id ∧
      (can_filter.mk 291 2047).can_mask = (can_filter.mk 291 2047).can_mask) ∧
    (can_filter.mk 291 2047 = can_filter.mk 291 2047 →
      can_filter_hash (can_filter.mk 291 2047) =
        can_filter_hash (can_filter.mk 291 2047)) :=
  can_filter_eq_iff_fields_and_hash_congruent
    (can_filter.mk 291 2047) (can_filter.mk 291 2047)

end SocketCan
